/-
Verification of the NFL touchdown-prediction pipeline.

This file gives a shallow embedding, in Lean 4, of the core pipeline logic
of the repository (feature engineering, odds conversion, week resolution,
prediction persistence, batch tracking, data readiness), and proves or
refutes the frozen specification claims about it.

Conventions of the embedding:
* Python floats are modelled as rationals (`ℚ`); pandas float columns,
  which additionally carry NaN and infinities, are modelled by `PFloat`.
* Python `round` (banker's rounding, round-half-to-even) is `pyRound`.
* Database tables are modelled as lists of typed rows; SQL `count`/`filter`
  queries become `List.filter`/`List.length`; `LIMIT 1` with an `ORDER BY`
  becomes "first occurrence of the extremum in table order".
* `YYYYMMDD` game-date strings are modelled as natural numbers: on
  fixed-width 8-digit strings, lexicographic string comparison (what the
  SQL layer does) coincides with numeric comparison.
-/
import Mathlib

/-! ## Python `round` (banker's rounding) -/

/-- Python's built-in `round` on a real (here rational) value: round half
to even. Used by `odds_conversion.py` as `round(probability * 100)` and
`round(odds)`. -/
def pyRound (q : ℚ) : ℤ :=
  let f : ℤ := ⌊q⌋
  let frac : ℚ := q - f
  if frac < 1/2 then f
  else if 1/2 < frac then f + 1
  else if f % 2 = 0 then f else f + 1

/-! ## `app/utils/odds_conversion.py` -/

/-- Embedding of `decimal_to_american_odds` from
`src/backend/app/utils/odds_conversion.py` (lines 5-38).
Returns `(formatted_string, raw_odds, favor)`.  The Python
`probability is None` guard is folded into the `probability == 0` case
(the input here is always a number). -/
def decimal_to_american_odds (probability : ℚ) : String × ℚ × ℤ :=
  if probability = 0 then ("+999", 999, 1)
  else
    let probability_pct : ℤ := pyRound (probability * 100)
    if probability_pct ≤ 0 then ("+999", 999, 1)
    else if 100 ≤ probability_pct then ("-999", -999, -1)
    else if probability_pct < 50 then
      let odds : ℚ := 100 / ((probability_pct : ℚ) / 100) - 100
      ("+" ++ toString (pyRound odds), odds, 1)
    else
      let odds : ℚ := ((probability_pct : ℚ) / (1 - (probability_pct : ℚ) / 100)) * (-1)
      (toString (pyRound odds), odds, -1)

/-! ## `app/ml/feature_engineering.py`

The pandas computations of `calculate_lagged_features` are embedded
column-by-column.  A pandas float cell is a `PFloat` (a rational, NaN or a
signed infinity); `.shift(1)` is `shift1`; `groupby('season_year')` shows
up as filters on `season_year`.  The input frame is sorted by
`(season_year, week)` first, as the Python function does. -/

/-- A pandas float cell: NaN, +inf, -inf or a finite value. -/
inductive PFloat where
  | nan : PFloat
  | pinf : PFloat
  | ninf : PFloat
  | num : ℚ → PFloat
deriving DecidableEq

/-- NumPy/pandas division on float cells: NaN propagates, `x/0` is a signed
infinity for `x ≠ 0` and NaN for `0/0`, finite/infinite is `0`. -/
def pfDiv : PFloat → PFloat → PFloat
  | PFloat.nan, _ => PFloat.nan
  | _, PFloat.nan => PFloat.nan
  | PFloat.pinf, PFloat.pinf => PFloat.nan
  | PFloat.pinf, PFloat.ninf => PFloat.nan
  | PFloat.ninf, PFloat.pinf => PFloat.nan
  | PFloat.ninf, PFloat.ninf => PFloat.nan
  | PFloat.pinf, PFloat.num b => if 0 ≤ b then PFloat.pinf else PFloat.ninf
  | PFloat.ninf, PFloat.num b => if 0 ≤ b then PFloat.ninf else PFloat.pinf
  | PFloat.num _, PFloat.pinf => PFloat.num 0
  | PFloat.num _, PFloat.ninf => PFloat.num 0
  | PFloat.num a, PFloat.num b =>
      if b = 0 then (if a = 0 then PFloat.nan else if 0 < a then PFloat.pinf else PFloat.ninf)
      else PFloat.num (a / b)

/-- Is the cell NaN (`pd.isna`)? -/
def pfIsNan : PFloat → Bool
  | PFloat.nan => true
  | _ => false

/-- The `.replace([np.inf, -np.inf], 0)` step. -/
def replaceInfWithZero : PFloat → PFloat
  | PFloat.pinf => PFloat.num 0
  | PFloat.ninf => PFloat.num 0
  | v => v

/-- One cell of the `df.fillna(0)` step. -/
def fillna0 : PFloat → PFloat
  | PFloat.nan => PFloat.num 0
  | v => v

/-- The `.shift(1)` of a column: cell `0` becomes NaN, cell `i` reads the old
cell `i - 1`. -/
def shift1 (col : ℕ → PFloat) : ℕ → PFloat :=
  fun i => if i = 0 then PFloat.nan else col (i - 1)

/-- One game-log dict as passed to `extract_prediction_features`
(`season_year`, `week`, `receptions`, `receiving_yards`,
`receiving_touchdowns`, `targets`). -/
structure GameLogDict where
  season_year : ℤ
  week : ℤ
  receptions : ℚ
  receiving_yards : ℚ
  receiving_touchdowns : ℚ
  targets : ℚ
deriving DecidableEq

/-- Is `(a.season_year, a.week) ≤ (b.season_year, b.week)` lexicographically? -/
def logKeyLe (a b : GameLogDict) : Bool :=
  decide (a.season_year < b.season_year ∨
    (a.season_year = b.season_year ∧ a.week ≤ b.week))

/-- Insert a row before the first existing row with a key it is `≤` to
(stable insertion). -/
def insertByKey (r : GameLogDict) : List GameLogDict → List GameLogDict
  | [] => [r]
  | x :: xs => if logKeyLe r x then r :: x :: xs else x :: insertByKey r xs

/-- The `df.sort_values(by=['season_year', 'week'])` step (a stable sort on
the two keys). -/
def sort_game_logs (l : List GameLogDict) : List GameLogDict :=
  l.foldr insertByKey []

/-- Row `i` of the sorted frame (out-of-range reads are never used). -/
def rowAt (rows : List GameLogDict) (i : ℕ) : GameLogDict :=
  rows.getD i ⟨0, 0, 0, 0, 0, 0⟩

/-- The `weeks_played` column: `groupby('season_year').cumcount() + 1`. -/
def weeks_played (rows : List GameLogDict) (i : ℕ) : ℤ :=
  ((rows.take i).countP (fun r => r.season_year = (rowAt rows i).season_year) : ℤ) + 1

/-- A `groupby('season_year')[col].cumsum()` cell: the sum of `f` over rows
`0..i` of the same season. -/
def group_cumsum (f : GameLogDict → ℚ) (rows : List GameLogDict) (i : ℕ) : ℚ :=
  (((rows.take (i + 1)).filter
    (fun r => r.season_year = (rowAt rows i).season_year)).map f).sum

/-- A `groupby('season_year')[col].rolling(3, min_periods=1).mean()` cell:
the mean of the last (up to) 3 same-season values ending at row `i`.  Since
the frame is sorted by season, the subsequent global `.shift(1)` (after
`reset_index`) coincides with `shift1` on this column. -/
def rolling_mean_3 (f : GameLogDict → ℚ) (rows : List GameLogDict) (i : ℕ) : ℚ :=
  let grp := ((rows.take (i + 1)).filter
    (fun r => r.season_year = (rowAt rows i).season_year)).map f
  let w := grp.drop (grp.length - 3)
  w.sum / (w.length : ℚ)

/-- Column `cumulative_receiving_yards` (cumsum, shifted by one). -/
def cumulative_receiving_yards (rows : List GameLogDict) : ℕ → PFloat :=
  shift1 (fun i => PFloat.num (group_cumsum (fun r => r.receiving_yards) rows i))

/-- Column `cumulative_yards_per_game`. -/
def cumulative_yards_per_game (rows : List GameLogDict) (i : ℕ) : PFloat :=
  pfDiv (cumulative_receiving_yards rows i) (PFloat.num ((weeks_played rows i : ℚ) - 1))

/-- Column `cumulative_receptions` (cumsum, shifted by one). -/
def cumulative_receptions (rows : List GameLogDict) : ℕ → PFloat :=
  shift1 (fun i => PFloat.num (group_cumsum (fun r => r.receptions) rows i))

/-- Column `cumulative_receptions_per_game`. -/
def cumulative_receptions_per_game (rows : List GameLogDict) (i : ℕ) : PFloat :=
  pfDiv (cumulative_receptions rows i) (PFloat.num ((weeks_played rows i : ℚ) - 1))

/-- Column `cumulative_receiving_touchdowns` (cumsum, shifted by one). -/
def cumulative_receiving_touchdowns (rows : List GameLogDict) : ℕ → PFloat :=
  shift1 (fun i => PFloat.num (group_cumsum (fun r => r.receiving_touchdowns) rows i))

/-- Column `cumulative_tds_per_game` (computed by the source, unused by the
11-feature vector). -/
def cumulative_tds_per_game (rows : List GameLogDict) (i : ℕ) : PFloat :=
  pfDiv (cumulative_receiving_touchdowns rows i) (PFloat.num ((weeks_played rows i : ℚ) - 1))

/-- Column `cumulative_targets` (cumsum, shifted by one). -/
def cumulative_targets (rows : List GameLogDict) : ℕ → PFloat :=
  shift1 (fun i => PFloat.num (group_cumsum (fun r => r.targets) rows i))

/-- Column `cumulative_targets_per_game`. -/
def cumulative_targets_per_game (rows : List GameLogDict) (i : ℕ) : PFloat :=
  pfDiv (cumulative_targets rows i) (PFloat.num ((weeks_played rows i : ℚ) - 1))

/-- Column `avg_receiving_yards_last_3` (rolling mean, shifted by one). -/
def avg_receiving_yards_last_3 (rows : List GameLogDict) : ℕ → PFloat :=
  shift1 (fun i => PFloat.num (rolling_mean_3 (fun r => r.receiving_yards) rows i))

/-- Column `avg_receptions_last_3` (rolling mean, shifted by one). -/
def avg_receptions_last_3 (rows : List GameLogDict) : ℕ → PFloat :=
  shift1 (fun i => PFloat.num (rolling_mean_3 (fun r => r.receptions) rows i))

/-- Column `avg_targets_last_3` (rolling mean, shifted by one). -/
def avg_targets_last_3 (rows : List GameLogDict) : ℕ → PFloat :=
  shift1 (fun i => PFloat.num (rolling_mean_3 (fun r => r.targets) rows i))

/-- Column `yards_per_reception`: per-row `receiving_yards / receptions`,
shifted by one, infinities replaced by `0`. -/
def yards_per_reception (rows : List GameLogDict) (i : ℕ) : PFloat :=
  replaceInfWithZero (shift1 (fun j =>
    pfDiv (PFloat.num (rowAt rows j).receiving_yards)
      (PFloat.num (rowAt rows j).receptions)) i)

/-- Column `td_rate_per_target`: the (already shifted) cumulative-touchdown
column divided by the (already shifted) cumulative-target column, shifted
once more, infinities replaced by `0` — the double shift is exactly what the
source computes. -/
def td_rate_per_target (rows : List GameLogDict) (i : ℕ) : PFloat :=
  replaceInfWithZero (shift1 (fun j =>
    pfDiv (cumulative_receiving_touchdowns rows j) (cumulative_targets rows j)) i)

/-- Column `lag_yds`: `receiving_yards.shift(1)`. -/
def lag_yds (rows : List GameLogDict) : ℕ → PFloat :=
  shift1 (fun i => PFloat.num (rowAt rows i).receiving_yards)

/-- Embedding of `extract_prediction_features` from
`src/backend/app/ml/feature_engineering.py` (lines 159-212): run
`calculate_lagged_features` (whose `fillna(0)` is applied cell-by-cell as
`fillna0` below), read the last row, and assemble the 11 features.  The
local `is_first_week` reads the post-`fillna` `lag_yds` cell, as the source
does. -/
def extract_prediction_features (game_logs : List GameLogDict) (next_week : ℤ) :
    Option (List PFloat) :=
  if game_logs.isEmpty then none
  else
    let df := sort_game_logs game_logs
    let i := df.length - 1
    let is_first_week : ℚ :=
      if weeks_played df i = 0 ∨ pfIsNan (fillna0 (lag_yds df i)) then 1 else 0
    some [PFloat.num (next_week : ℚ),
      fillna0 (lag_yds df i),
      fillna0 (cumulative_yards_per_game df i),
      fillna0 (cumulative_receptions_per_game df i),
      fillna0 (cumulative_targets_per_game df i),
      fillna0 (avg_receiving_yards_last_3 df i),
      fillna0 (avg_receptions_last_3 df i),
      fillna0 (avg_targets_last_3 df i),
      fillna0 (yards_per_reception df i),
      fillna0 (td_rate_per_target df i),
      PFloat.num is_first_week]

/-- Embedding of `create_week_1_features` from
`src/backend/app/ml/feature_engineering.py` (lines 247-271). -/
def create_week_1_features (week : ℤ) : List PFloat :=
  [PFloat.num (week : ℚ), PFloat.num 0, PFloat.num 0, PFloat.num 0, PFloat.num 0,
    PFloat.num 0, PFloat.num 0, PFloat.num 0, PFloat.num 0, PFloat.num 0, PFloat.num 1]

/-- Embedding of `extract_features_for_current_season` from
`src/backend/app/ml/feature_engineering.py` (lines 215-244): filter to the
current season's weeks before `next_week`; with nothing left, return the
week-1 baseline only when `next_week == 1`, else `None`. -/
def extract_features_for_current_season (game_logs : List GameLogDict)
    (current_year next_week : ℤ) : Option (List PFloat) :=
  let current_season_logs := game_logs.filter
    (fun log => log.season_year = current_year ∧ log.week < next_week)
  if current_season_logs.isEmpty then
    if next_week = 1 then some (create_week_1_features next_week) else none
  else
    extract_prediction_features current_season_logs next_week

/-! ## `app/services/prediction_service.py` -/

/-- One row of the `predictions` table (`app/models/prediction.py`): unique
key `(player_id, season_year, week)`, payload `td_likelihood`, `model_odds`,
`favor`. -/
structure PredictionRow where
  player_id : String
  season_year : ℤ
  week : ℤ
  td_likelihood : ℚ
  model_odds : ℚ
  favor : ℤ
deriving DecidableEq

/-- What `PredictionService._save_prediction` did with the row. -/
inductive SaveAction where
  | created : SaveAction
  | updated : SaveAction
  | skipped : SaveAction
deriving DecidableEq

/-- The existence query of `_save_prediction`: the first stored row with the
given `(player_id, season_year, week)` key. -/
def findPrediction (store : List PredictionRow) (player_id : String)
    (season_year week : ℤ) : Option PredictionRow :=
  store.find? (fun r =>
    r.player_id = player_id ∧ r.season_year = season_year ∧ r.week = week)

/-- Replace the first key-matching row by `f` applied to it. -/
def updateFirstPrediction (player_id : String) (season_year week : ℤ)
    (f : PredictionRow → PredictionRow) : List PredictionRow → List PredictionRow
  | [] => []
  | r :: rs =>
    if r.player_id = player_id ∧ r.season_year = season_year ∧ r.week = week then
      f r :: rs
    else
      r :: updateFirstPrediction player_id season_year week f rs

/-- Embedding of `PredictionService._save_prediction` from
`src/backend/app/services/prediction_service.py` (lines 138-191): if a row
for the key exists, update it in place when `update_existing` and skip it
(logged, no error) otherwise; else insert a new row.  Returns the new table
and what happened. -/
def save_prediction (store : List PredictionRow) (player_id : String)
    (season_year week : ℤ) (probability odds_value : ℚ) (favor : ℤ)
    (update_existing : Bool) : List PredictionRow × SaveAction :=
  match findPrediction store player_id season_year week with
  | some _ =>
    if update_existing then
      (updateFirstPrediction player_id season_year week
        (fun r => { r with td_likelihood := probability, model_odds := odds_value,
                           favor := favor }) store,
       SaveAction.updated)
    else
      (store, SaveAction.skipped)
  | none =>
    (store ++ [⟨player_id, season_year, week, probability, odds_value, favor⟩],
     SaveAction.created)

/-- The default of the `update_existing` parameter of
`PredictionService.generate_prediction` (line 32 of
`src/backend/app/services/prediction_service.py`: `update_existing: bool =
True`); `generate_current_week_predictions` (line 204) uses the same
default. -/
def generate_prediction_update_existing_default : Bool := true

/-! ## `app/services/batch_tracking.py` — `BatchTracker.__aexit__` -/

/-- The fields of a `BatchRun` that `__aexit__` writes (timestamps are not
modelled). -/
structure BatchRunState where
  status : String
  error_message : Option String
  errors_encountered : ℤ
  warnings : List (String × String)
deriving DecidableEq

/-- Embedding of `BatchTracker.__aexit__` from
`src/backend/app/services/batch_tracking.py` (lines 54-85): `exc` is the
exception text that escaped the `async with` body (`none` when it completed
normally), `warnings` the warnings `add_warning` accumulated.  Returns the
finalized run and whether `update_data_readiness` is invoked afterwards. -/
def batch_tracker_aexit (run : BatchRunState) (exc : Option String)
    (warnings : List (String × String)) : BatchRunState × Bool :=
  let run' :=
    match exc with
    | some e =>
      { run with status := "failed", error_message := some e, errors_encountered := 1 }
    | none =>
      if ¬ warnings.isEmpty then
        { run with status := "partial", warnings := warnings }
      else
        { run with status := "success" }
  (run', run'.status = "success" ∨ run'.status = "partial")

/-! ## `app/services/batch_tracking.py` — `update_data_readiness` -/

/-- One row of the `schedule` table (`app/models/schedule.py`); `game_date`
holds the `YYYYMMDD` string as a number (lexicographic comparison of
fixed-width 8-digit strings is numeric comparison). -/
structure ScheduleRow where
  game_id : String
  season_year : ℤ
  week : ℤ
  season_type : String
  game_date : ℕ
deriving DecidableEq

/-- One row of the `game_logs` table (`app/models/game_log.py`); the columns
that do not steer any embedded logic (team, long_reception, …) are
omitted. -/
structure GameLogRow where
  player_id : String
  game_id : String
  season_year : ℤ
  week : ℤ
  receptions : ℤ
  receiving_yards : ℤ
  receiving_touchdowns : ℤ
  targets : ℤ
deriving DecidableEq

/-- One row of the `sportsbook_odds` table (`app/models/odds.py`). -/
structure SportsbookOddsRow where
  player_id : String
  game_id : String
  season_year : ℤ
  week : ℤ
  sportsbook : String
deriving DecidableEq

/-- The `season_type_map` dict of `update_data_readiness` (`.get(st, st)`). -/
def season_type_map (season_type : String) : String :=
  if season_type = "reg" then "Regular Season"
  else if season_type = "post" then "Post Season"
  else season_type

/-- The `DataReadiness` row that `update_data_readiness` upserts. -/
structure DataReadinessRow where
  season_year : ℤ
  week : ℤ
  season_type : String
  schedule_complete : Bool
  game_logs_available : Bool
  predictions_available : Bool
  draftkings_odds_available : Bool
  fanduel_odds_available : Bool
  games_count : ℕ
  game_logs_count : ℕ
  predictions_count : ℕ
  draftkings_odds_count : ℕ
  fanduel_odds_count : ℕ
deriving DecidableEq

/-- Embedding of `update_data_readiness` from
`src/backend/app/services/batch_tracking.py` (lines 192-293): count queries
against the four tables become filters; the game-log count reads the prior
week (`week - 1` when `week > 1`, else `week`); the upserted row is
returned. -/
def update_data_readiness (schedule : List ScheduleRow)
    (game_logs : List GameLogRow) (predictions : List PredictionRow)
    (odds : List SportsbookOddsRow) (season_year week : ℤ)
    (season_type : String) : DataReadinessRow :=
  let db_season_type := season_type_map season_type
  let games_count := (schedule.filter (fun r =>
    r.season_year = season_year ∧ r.week = week ∧
      r.season_type = db_season_type)).length
  let prior_week := if 1 < week then week - 1 else week
  let game_logs_count := (game_logs.filter (fun r =>
    r.season_year = season_year ∧ r.week = prior_week)).length
  let predictions_count := (predictions.filter (fun r =>
    r.season_year = season_year ∧ r.week = week)).length
  let draftkings_odds_count := (odds.filter (fun r =>
    r.season_year = season_year ∧ r.week = week ∧
      r.sportsbook = "draftkings")).length
  let fanduel_odds_count := (odds.filter (fun r =>
    r.season_year = season_year ∧ r.week = week ∧
      r.sportsbook = "fanduel")).length
  let expected_games : ℕ := if season_type = "reg" then 14 else 1
  { season_year := season_year
    week := week
    season_type := season_type
    schedule_complete := expected_games ≤ games_count
    game_logs_available := 0 < game_logs_count
    predictions_available := 0 < predictions_count
    draftkings_odds_available := 0 < draftkings_odds_count
    fanduel_odds_available := 0 < fanduel_odds_count
    games_count := games_count
    game_logs_count := game_logs_count
    predictions_count := predictions_count
    draftkings_odds_count := draftkings_odds_count
    fanduel_odds_count := fanduel_odds_count }

/-! ## `app/utils/nfl_calendar.py` — `get_current_nfl_week_from_schedule`

The function is pure in `(today, today + 4 days, weekday, calendar year,
schedule table)`; the `datetime` glue that produces `today`,
`four_days_from_now` (the `timedelta(days=4)` horizon) and the weekday is
kept outside the embedding and passed in as parameters.  Each SQL
`ORDER BY ... LIMIT 1` query becomes the first occurrence of the extremum
in table order. -/

/-- The Monday query: `SELECT .. WHERE game_date == today LIMIT 1` (no
order: first row in table order). -/
def scheduleGameToday (sched : List ScheduleRow) (today : ℕ) : Option ScheduleRow :=
  sched.find? (fun r => r.game_date = today)

/-- The Monday look-back query: `WHERE game_date < today ORDER BY game_date
DESC LIMIT 1`. -/
def mostRecentPastGame (sched : List ScheduleRow) (today : ℕ) : Option ScheduleRow :=
  (sched.filter (fun r => r.game_date < today)).foldl
    (fun acc r =>
      match acc with
      | none => some r
      | some b => if b.game_date < r.game_date then some r else some b)
    none

/-- The forward query: `WHERE today ≤ game_date ≤ four_days_from_now
ORDER BY game_date, week LIMIT 1`. -/
def upcomingGame (sched : List ScheduleRow) (today four_days_from_now : ℕ) :
    Option ScheduleRow :=
  (sched.filter (fun r => today ≤ r.game_date ∧ r.game_date ≤ four_days_from_now)).foldl
    (fun acc r =>
      match acc with
      | none => some r
      | some b =>
        if r.game_date < b.game_date ∨ (r.game_date = b.game_date ∧ r.week < b.week)
        then some r else some b)
    none

/-- The last-game query: `ORDER BY game_date DESC, week DESC LIMIT 1`. -/
def lastGame (sched : List ScheduleRow) : Option ScheduleRow :=
  sched.foldl
    (fun acc r =>
      match acc with
      | none => some r
      | some b =>
        if b.game_date < r.game_date ∨ (b.game_date = r.game_date ∧ b.week < r.week)
        then some r else some b)
    none

/-- The first-playoff query: `WHERE season_year == y AND season_type ==
'post' ORDER BY week LIMIT 1`. -/
def firstPlayoffGame (sched : List ScheduleRow) (y : ℤ) : Option ScheduleRow :=
  (sched.filter (fun r => r.season_year = y ∧ r.season_type = "post")).foldl
    (fun acc r =>
      match acc with
      | none => some r
      | some b => if r.week < b.week then some r else some b)
    none

/-- The next-playoff query: `WHERE season_year == y AND season_type ==
'post' AND week > w ORDER BY week LIMIT 1`. -/
def nextPlayoffGame (sched : List ScheduleRow) (y w : ℤ) : Option ScheduleRow :=
  (sched.filter (fun r => r.season_year = y ∧ r.season_type = "post" ∧ w < r.week)).foldl
    (fun acc r =>
      match acc with
      | none => some r
      | some b => if r.week < b.week then some r else some b)
    none

/-- The shared forward-looking tail of `get_current_nfl_week_from_schedule`
(`src/backend/app/utils/nfl_calendar.py`, lines 97-156): nearest game in
the 4-day window, else transition from the last game in the table, else the
default `(current calendar year, 1, 'reg')`. -/
def nflWeekForward (today four_days_from_now : ℕ) (current_year : ℤ)
    (sched : List ScheduleRow) : ℤ × ℤ × String :=
  match upcomingGame sched today four_days_from_now with
  | some g => (g.season_year, g.week, g.season_type)
  | none =>
    match lastGame sched with
    | some last =>
      if last.season_type = "reg" ∧ last.week = 18 then
        match firstPlayoffGame sched last.season_year with
        | some fp => (last.season_year, fp.week, "post")
        | none => (last.season_year + 1, 1, "reg")
      else if last.season_type = "post" then
        match nextPlayoffGame sched last.season_year last.week with
        | some np => (last.season_year, np.week, "post")
        | none => (last.season_year + 1, 1, "reg")
      else
        (last.season_year, last.week + 1, "reg")
    | none => (current_year, 1, "reg")

/-- Embedding of `get_current_nfl_week_from_schedule` from
`src/backend/app/utils/nfl_calendar.py` (lines 6-160): `day_of_week` is
Python's `weekday()` (0 = Monday); on Monday the function first returns a
game dated today (MNF), then the most recent past game, and only then falls
through to the forward logic; every other weekday uses the forward logic
with the same 4-day horizon. -/
def get_current_nfl_week_from_schedule (today four_days_from_now : ℕ)
    (day_of_week : ℕ) (current_year : ℤ) (sched : List ScheduleRow) :
    ℤ × ℤ × String :=
  if day_of_week = 0 then
    match scheduleGameToday sched today with
    | some g => (g.season_year, g.week, g.season_type)
    | none =>
      match mostRecentPastGame sched today with
      | some g => (g.season_year, g.week, g.season_type)
      | none => nflWeekForward today four_days_from_now current_year sched
  else
    nflWeekForward today four_days_from_now current_year sched

/-! ## `app/utils/nfl_calendar.py` — `get_previous_nfl_week`

`get_current_nfl_week()` returns the 3-tuple `(year, week, season_type)`;
`get_previous_nfl_week` executes `year, week = get_current_nfl_week()`,
a 2-name unpacking of that 3-tuple.  Python tuple unpacking is embedded
explicitly so that the arity mismatch is visible. -/

/-- A Python value as it appears in the week tuples. -/
inductive PyVal where
  | int : ℤ → PyVal
  | str : String → PyVal
deriving DecidableEq

/-- Python's `a, b = t` on a tuple `t` of any length: succeeds only when
the tuple has exactly two elements, otherwise raises `ValueError`. -/
def unpack2 (t : List PyVal) : Except String (PyVal × PyVal) :=
  match t with
  | [a, b] => Except.ok (a, b)
  | l =>
    if 2 < l.length then Except.error "ValueError: too many values to unpack (expected 2)"
    else Except.error "ValueError: not enough values to unpack"

/-- The tuple `get_current_nfl_week` returns (lines 162-187 of
`src/backend/app/utils/nfl_calendar.py`): always the 3-tuple
`(year, week, season_type)`, whether the schedule path or the calendar
fallback produced it.  The embedding takes the resolved triple as a
parameter. -/
def get_current_nfl_week_tuple (current : ℤ × ℤ × String) : List PyVal :=
  [PyVal.int current.1, PyVal.int current.2.1, PyVal.str current.2.2]

/-- Embedding of `get_previous_nfl_week` from
`src/backend/app/utils/nfl_calendar.py` (lines 293-301): unpack the result
of `get_current_nfl_week()` into `year, week`, then step one week back. -/
def get_previous_nfl_week (current : ℤ × ℤ × String) : Except String (ℤ × ℤ) :=
  match unpack2 (get_current_nfl_week_tuple current) with
  | Except.error e => Except.error e
  | Except.ok (PyVal.int year, PyVal.int week) =>
    if 1 < week then Except.ok (year, week - 1) else Except.ok (year - 1, 18)
  | Except.ok _ => Except.error "TypeError"

/-! ## `update_weekly.py` — `update_game_logs_from_box_scores`

The per-game loop catches every exception (a failed box-score fetch rolls
the game back and continues), so the function is total; the box-score
client is passed in as `fetch : game_id → Except error (list of parsed
logs)`, with the loop-constant `season_year`/`week` arguments of
`client.get_game_logs_from_box_score` suppressed. -/

/-- The loop state of `update_game_logs_from_box_scores`: the `game_logs`
table (session view, inserts included), `new_logs`, the `skipped_players`
set (as a duplicate-free list) and `games_processed`. -/
structure GameLogsSyncState where
  db_game_logs : List GameLogRow
  new_logs : ℕ
  skipped_players : List String
  games_processed : ℕ
deriving DecidableEq

/-- The inner per-log fold of one game: validate the player id, check for
an existing `(player_id, game.game_id)` row, insert if absent.  The
accumulator is `(session table, logs_added, skipped_players)`. -/
def processBoxScoreLog (game : ScheduleRow) (valid_player_ids : List String)
    (acc : List GameLogRow × ℕ × List String) (log : GameLogRow) :
    List GameLogRow × ℕ × List String :=
  if log.player_id ∈ valid_player_ids then
    if ((acc.1.find? (fun g =>
        g.player_id = log.player_id ∧ g.game_id = game.game_id)).isSome : Bool) then
      acc
    else
      (acc.1 ++ [log], acc.2.1 + 1, acc.2.2)
  else
    (acc.1, acc.2.1, if log.player_id ∈ acc.2.2 then acc.2.2 else acc.2.2 ++ [log.player_id])

/-- One iteration of the game loop: fetch the box score (an exception is
caught: rollback, `continue`), skip the `games_processed` increment when no
stats came back, else fold the logs and commit. -/
def processBoxScoreGame (valid_player_ids : List String)
    (fetch : String → Except String (List GameLogRow))
    (st : GameLogsSyncState) (game : ScheduleRow) : GameLogsSyncState :=
  match fetch game.game_id with
  | Except.error _ => st
  | Except.ok game_logs =>
    if game_logs.isEmpty then st
    else
      let r := game_logs.foldl (processBoxScoreLog game valid_player_ids)
        (st.db_game_logs, 0, st.skipped_players)
      { db_game_logs := r.1
        new_logs := st.new_logs + r.2.1
        skipped_players := r.2.2
        games_processed := st.games_processed + 1 }

/-- Embedding of `update_game_logs_from_box_scores` from
`src/backend/update_weekly.py` (lines 141-252): select the completed
week's games from the schedule, return `0` when there are none, else run
the per-game loop. -/
def update_game_logs_from_box_scores (db_game_logs : List GameLogRow)
    (valid_player_ids : List String)
    (fetch : String → Except String (List GameLogRow))
    (schedule : List ScheduleRow) (current_season current_week : ℤ) :
    GameLogsSyncState :=
  let completed_week := current_week - 1
  let games := schedule.filter (fun r =>
    r.season_year = current_season ∧ r.week = completed_week)
  if games.isEmpty then ⟨db_game_logs, 0, [], 0⟩
  else games.foldl (processBoxScoreGame valid_player_ids fetch) ⟨db_game_logs, 0, [], 0⟩

/-- The record `complete_step` writes for a finished step. -/
structure StepResult where
  status : String
  records_processed : ℕ
deriving DecidableEq

/-- Embedding of the game-logs step of `_execute_batch_steps` from
`src/backend/update_weekly.py` (lines 773-792), box-score path, regular
season: run `update_game_logs_from_box_scores` (which never raises — its
per-game loop catches every per-item exception) and complete the step with
`status='success'` and `records_processed=logs_added`. -/
def run_game_logs_step (db_game_logs : List GameLogRow)
    (valid_player_ids : List String)
    (fetch : String → Except String (List GameLogRow))
    (schedule : List ScheduleRow) (current_season current_week : ℤ) : StepResult :=
  let logs_added := (update_game_logs_from_box_scores db_game_logs valid_player_ids
    fetch schedule current_season current_week).new_logs
  { status := "success", records_processed := logs_added }

/-- A box-score fetch stub used by the concrete partial-failure scenario:
it fails for game `g0` and returns one parsed log for every other game. -/
def witnessFetch : String → Except String (List GameLogRow) :=
  fun game_id =>
    if game_id = "g0" then Except.error "API error"
    else Except.ok [⟨"p1", "gA", 2025, 4, 3, 40, 0, 5⟩]

/-! ## Helper lemmas -/

/-- On an integer, banker's rounding is the identity. -/
theorem pyRound_intCast (n : ℤ) : pyRound ((n : ℚ)) = n := by
  unfold pyRound
  norm_num

/-! ## C1 -/

/-- C1.  History = one prior game (week 1: 5 receptions, 80 yards, 1 TD,
8 targets), target week 2.  The claim (and §4.2 / Scenario A of the spec)
expects `lag_yards = 80` and `is_first_week = 1`; the code instead reads
the *lagged* columns of the last row — which look one further game back —
and its NaN check is dead after `fillna(0)`, so the vector it actually
produces is `[2, 0, 0, 0, 0, 0, 0, 0, 0, 0, 0]`: `lag_yds = 0` and
`is_first_week = 0` (the `cumulative_yards_per_game = 0` and
`td_rate_per_target = 0` parts of the claim do hold). -/
theorem extract_prediction_features_single_prior_game :
    extract_prediction_features [⟨2025, 1, 5, 80, 1, 8⟩] 2 =
      some [PFloat.num 2, PFloat.num 0, PFloat.num 0, PFloat.num 0, PFloat.num 0,
        PFloat.num 0, PFloat.num 0, PFloat.num 0, PFloat.num 0, PFloat.num 0,
        PFloat.num 0] := by
  norm_num [extract_prediction_features, sort_game_logs, insertByKey, rowAt,
    weeks_played, group_cumsum, rolling_mean_3, lag_yds, shift1, fillna0, pfIsNan,
    cumulative_receiving_yards, cumulative_yards_per_game, cumulative_receptions,
    cumulative_receptions_per_game, cumulative_receiving_touchdowns,
    cumulative_targets, cumulative_targets_per_game, avg_receiving_yards_last_3,
    avg_receptions_last_3, avg_targets_last_3, yards_per_reception,
    td_rate_per_target, pfDiv, replaceInfWithZero]

/-! ## C2 -/

/-- C2, counterexample.  With an empty history and target week 2,
`extract_features_for_current_season` returns `None`, not the claimed
baseline vector `[2, 0, 0, 0, 0, 0, 0, 0, 0, 0, 1]`. -/
theorem extract_features_empty_week2_not_baseline :
    extract_features_for_current_season [] 2025 2 = none ∧
    extract_features_for_current_season [] 2025 2 ≠
      some [PFloat.num 2, PFloat.num 0, PFloat.num 0, PFloat.num 0, PFloat.num 0,
        PFloat.num 0, PFloat.num 0, PFloat.num 0, PFloat.num 0, PFloat.num 0,
        PFloat.num 1] := by
  constructor
  · rfl
  · simp [extract_features_for_current_season]

/-- C2, amended.  `create_week_1_features W` is the baseline vector
`[W, 0, 0, 0, 0, 0, 0, 0, 0, 0, 1]` for every week `W`, but
`extract_features_for_current_season` with an empty history returns that
baseline only for target week 1, and `None` for every other target week. -/
theorem extract_features_empty_history_amended (current_year W : ℤ) :
    create_week_1_features W =
      [PFloat.num (W : ℚ), PFloat.num 0, PFloat.num 0, PFloat.num 0, PFloat.num 0,
        PFloat.num 0, PFloat.num 0, PFloat.num 0, PFloat.num 0, PFloat.num 0,
        PFloat.num 1] ∧
    extract_features_for_current_season [] current_year W =
      (if W = 1 then some (create_week_1_features 1) else none) := by
  constructor
  · rfl
  · unfold extract_features_for_current_season
    by_cases h : W = 1 <;> simp [h]

/-! ## C3 -/

/-- C3, counterexample.  The default of the write path is
`update_existing = True` (`generate_prediction`, line 32), and under that
default a second write at an existing key overwrites the stored
probability/odds/favor — so "not overwriting is the default behavior" is
false. -/
theorem save_prediction_default_overwrites :
    generate_prediction_update_existing_default = true ∧
    (save_prediction [⟨"P1", 2025, 5, 3/10, 233, 1⟩] "P1" 2025 5 (9/10) (-900) (-1)
        generate_prediction_update_existing_default).1 =
      [⟨"P1", 2025, 5, 9/10, -900, -1⟩] := by
  constructor
  · rfl
  · rfl

/-- C3, amended.  When a row for `(player_id, season_year, week)` already
exists and `update_existing = False` is passed, a second write with
different probability/odds/favor values leaves the table unchanged and is
reported as skipped, not as an error; but that is not the default —
`generate_prediction` defaults to `update_existing = True`, which
overwrites. -/
theorem save_prediction_without_update_skips (store : List PredictionRow)
    (player_id : String) (season_year week : ℤ) (probability odds_value : ℚ)
    (favor : ℤ) (r : PredictionRow)
    (h : findPrediction store player_id season_year week = some r) :
    save_prediction store player_id season_year week probability odds_value favor
      false = (store, SaveAction.skipped) := by
  unfold save_prediction
  rw [h]
  rfl

/-- C3, witness: a concrete second write at an occupied key with
`update_existing = False` leaves the first-written row (probability 0.3)
unchanged and reports `skipped`. -/
theorem save_prediction_without_update_skips_witness :
    findPrediction [⟨"P1", 2025, 5, 3/10, 233, 1⟩] "P1" 2025 5 =
      some ⟨"P1", 2025, 5, 3/10, 233, 1⟩ ∧
    save_prediction [⟨"P1", 2025, 5, 3/10, 233, 1⟩] "P1" 2025 5 (9/10) (-900) (-1)
      false = ([⟨"P1", 2025, 5, 3/10, 233, 1⟩], SaveAction.skipped) :=
  ⟨rfl, save_prediction_without_update_skips _ _ _ _ _ _ _ _ rfl⟩

/-! ## C4 -/

/-- C4.  `BatchTracker.__aexit__` finalizes the run as `failed` exactly
when an exception escaped the batch body, as `partial` exactly when it
completed with at least one recorded warning, and as `success` otherwise;
and `update_data_readiness` is invoked exactly when the final status is
`success` or `partial` — equivalently, exactly when no exception
occurred. -/
theorem batch_tracker_aexit_status_readiness (run : BatchRunState)
    (exc : Option String) (warnings : List (String × String)) :
    ((batch_tracker_aexit run exc warnings).1.status = "failed" ↔ exc ≠ none) ∧
    ((batch_tracker_aexit run exc warnings).1.status = "partial" ↔
      exc = none ∧ warnings ≠ []) ∧
    ((batch_tracker_aexit run exc warnings).1.status = "success" ↔
      exc = none ∧ warnings = []) ∧
    ((batch_tracker_aexit run exc warnings).2 = true ↔
      ((batch_tracker_aexit run exc warnings).1.status = "success" ∨
       (batch_tracker_aexit run exc warnings).1.status = "partial")) ∧
    ((batch_tracker_aexit run exc warnings).2 = true ↔ exc = none) := by
  cases exc with
  | some e =>
    simp [batch_tracker_aexit]
  | none =>
    by_cases hw : warnings = [] <;>
      simp [batch_tracker_aexit, hw]

/-! ## Odds conversion branch lemmas -/

/-- Rounding `0 * 100` gives `0`. -/
theorem pyRound_zero_mul : pyRound ((0 : ℚ) * 100) = 0 := by
  rw [show ((0 : ℚ) * 100) = ((0 : ℤ) : ℚ) by norm_num, pyRound_intCast]

/-- The `p <= 0` sentinel branch of `decimal_to_american_odds`. -/
theorem odds_branch_zero (q : ℚ) (h : pyRound (q * 100) ≤ 0) :
    decimal_to_american_odds q = ("+999", 999, 1) := by
  by_cases hq : q = 0
  · subst hq; rfl
  · simp only [decimal_to_american_odds]
    split_ifs <;> first | rfl | (exfalso; omega)

/-- The `p >= 100` sentinel branch of `decimal_to_american_odds`. -/
theorem odds_branch_hundred (q : ℚ) (h : 100 ≤ pyRound (q * 100)) :
    decimal_to_american_odds q = ("-999", -999, -1) := by
  have hq : q ≠ 0 := by
    intro hq0
    subst hq0
    rw [pyRound_zero_mul] at h
    exact absurd h (by norm_num)
  simp only [decimal_to_american_odds]
  split_ifs with hz h1 h2 h3 <;> first | rfl | (exfalso; omega) | exact absurd hz hq

/-- The underdog branch (`0 < p < 50`) of `decimal_to_american_odds`. -/
theorem odds_branch_low (q : ℚ) (h0 : 0 < pyRound (q * 100))
    (h50 : pyRound (q * 100) < 50) :
    decimal_to_american_odds q =
      ("+" ++ toString (pyRound (100 / ((pyRound (q * 100) : ℚ) / 100) - 100)),
       100 / ((pyRound (q * 100) : ℚ) / 100) - 100, 1) := by
  have hq : q ≠ 0 := by
    intro hq0
    subst hq0
    rw [pyRound_zero_mul] at h0
    exact absurd h0 (by norm_num)
  simp only [decimal_to_american_odds]
  split_ifs with hz h1 h2 h3 <;> first | rfl | (exfalso; omega) | exact absurd hz hq

/-- The favorite branch (`50 <= p < 100`) of `decimal_to_american_odds`. -/
theorem odds_branch_high (q : ℚ) (h50 : 50 ≤ pyRound (q * 100))
    (h100 : pyRound (q * 100) < 100) :
    decimal_to_american_odds q =
      (toString (pyRound (((pyRound (q * 100) : ℚ) / (1 - (pyRound (q * 100) : ℚ) / 100)) * (-1))),
       ((pyRound (q * 100) : ℚ) / (1 - (pyRound (q * 100) : ℚ) / 100)) * (-1), -1) := by
  have hq : q ≠ 0 := by
    intro hq0
    subst hq0
    rw [pyRound_zero_mul] at h50
    exact absurd h50 (by norm_num)
  simp only [decimal_to_american_odds]
  split_ifs with hz h1 h2 h3 <;> first | rfl | (exfalso; omega) | exact absurd hz hq

/-! ## C6 -/

/-- C6.  With `p = round(probability * 100)`: `p = 0` returns the `+999`
sentinel with favor `+1` and `p = 100` the `-999` sentinel with favor `-1`;
`0 < p < 50` returns raw odds `(100 / (p/100)) - 100` with favor `+1` and a
leading `+` in the formatted string; `50 ≤ p < 100` returns raw odds
`-[(p/100) / (1 - p/100) * 100]` with favor `-1`; and concretely
probability `0.25 ↦ "+300"`, `0.50 ↦` favor `-1` with magnitude `100`,
and `0.75 ↦ "-300"`. -/
theorem decimal_to_american_odds_branch_formulas :
    (∀ q : ℚ, pyRound (q * 100) = 0 → decimal_to_american_odds q = ("+999", 999, 1)) ∧
    (∀ q : ℚ, pyRound (q * 100) = 100 →
      decimal_to_american_odds q = ("-999", -999, -1)) ∧
    (∀ q : ℚ, 0 < pyRound (q * 100) → pyRound (q * 100) < 50 →
      (decimal_to_american_odds q).2.1 = 100 / ((pyRound (q * 100) : ℚ) / 100) - 100 ∧
      (decimal_to_american_odds q).2.2 = 1 ∧
      ∃ s, (decimal_to_american_odds q).1 = "+" ++ s) ∧
    (∀ q : ℚ, 50 ≤ pyRound (q * 100) → pyRound (q * 100) < 100 →
      (decimal_to_american_odds q).2.1 =
        -(((pyRound (q * 100) : ℚ) / 100) / (1 - (pyRound (q * 100) : ℚ) / 100) * 100) ∧
      (decimal_to_american_odds q).2.2 = -1) ∧
    decimal_to_american_odds (1/4) = ("+300", 300, 1) ∧
    ((decimal_to_american_odds (1/2)).2.2 = -1 ∧
      |(decimal_to_american_odds (1/2)).2.1| = 100) ∧
    decimal_to_american_odds (3/4) = ("-300", -300, -1) := by
  have h25 : pyRound ((1/4 : ℚ) * 100) = 25 := by
    rw [show ((1/4 : ℚ) * 100) = ((25 : ℤ) : ℚ) by norm_num, pyRound_intCast]
  have h50 : pyRound ((1/2 : ℚ) * 100) = 50 := by
    rw [show ((1/2 : ℚ) * 100) = ((50 : ℤ) : ℚ) by norm_num, pyRound_intCast]
  have h75 : pyRound ((3/4 : ℚ) * 100) = 75 := by
    rw [show ((3/4 : ℚ) * 100) = ((75 : ℤ) : ℚ) by norm_num, pyRound_intCast]
  refine ⟨?_, ?_, ?_, ?_, ?_, ?_, ?_⟩
  · intro q h
    exact odds_branch_zero q (le_of_eq h)
  · intro q h
    exact odds_branch_hundred q (ge_of_eq h)
  · intro q h1 h2
    rw [odds_branch_low q h1 h2]
    exact ⟨rfl, rfl, ⟨_, rfl⟩⟩
  · intro q h1 h2
    rw [odds_branch_high q h1 h2]
    constructor
    · show ((pyRound (q * 100) : ℚ) / (1 - (pyRound (q * 100) : ℚ) / 100)) * (-1) = _
      ring
    · rfl
  · rw [odds_branch_low (1/4) (by rw [h25]; norm_num) (by rw [h25]; norm_num), h25]
    have h300 : (100 / (((25 : ℤ) : ℚ) / 100) - 100) = ((300 : ℤ) : ℚ) := by
      push_cast
      norm_num
    rw [h300, pyRound_intCast]
    simp only [Prod.mk.injEq]
    refine ⟨by rfl, by push_cast; norm_num, trivial⟩
  · rw [odds_branch_high (1/2) (by rw [h50]) (by rw [h50]; norm_num), h50]
    constructor
    · rfl
    · have hm : ((((50 : ℤ) : ℚ)) / (1 - ((50 : ℤ) : ℚ) / 100)) * (-1) = -100 := by
        push_cast
        norm_num
      show |((((50 : ℤ) : ℚ)) / (1 - ((50 : ℤ) : ℚ) / 100)) * (-1)| = 100
      rw [hm, abs_of_nonpos (by norm_num)]
      norm_num
  · rw [odds_branch_high (3/4) (by rw [h75]; norm_num) (by rw [h75]; norm_num), h75]
    have hm : ((((75 : ℤ) : ℚ)) / (1 - ((75 : ℤ) : ℚ) / 100)) * (-1) = ((-300 : ℤ) : ℚ) := by
      push_cast
      norm_num
    rw [hm, pyRound_intCast]
    simp only [Prod.mk.injEq]
    refine ⟨by rfl, by push_cast; norm_num, trivial⟩

/-! ## C9 -/

/-- C9.  For every probability input, the conversion returns a favor that
is the sign of the raw odds (`+1` with positive odds or `-1` with negative
odds), and the raw odds magnitude is at least `100`: a value strictly
between `-100` and `+100` is never returned. -/
theorem decimal_to_american_odds_favor_sign_magnitude (q : ℚ) :
    ((0 < (decimal_to_american_odds q).2.1 ∧ (decimal_to_american_odds q).2.2 = 1) ∨
     ((decimal_to_american_odds q).2.1 < 0 ∧ (decimal_to_american_odds q).2.2 = -1)) ∧
    100 ≤ |(decimal_to_american_odds q).2.1| := by
  rcases le_or_lt (pyRound (q * 100)) 0 with h | h
  · rw [odds_branch_zero q h]
    refine ⟨Or.inl ⟨by norm_num, rfl⟩, ?_⟩
    show (100 : ℚ) ≤ |(999 : ℚ)|
    rw [abs_of_pos (by norm_num : (0:ℚ) < 999)]
    norm_num
  · rcases le_or_lt 100 (pyRound (q * 100)) with h2 | h2
    · rw [odds_branch_hundred q h2]
      refine ⟨Or.inr ⟨by norm_num, rfl⟩, ?_⟩
      show (100 : ℚ) ≤ |(-999 : ℚ)|
      rw [abs_of_neg (by norm_num : (-999:ℚ) < 0)]
      norm_num
    · rcases lt_or_le (pyRound (q * 100)) 50 with h3 | h3
      · rw [odds_branch_low q h h3]
        have hp1 : (0 : ℚ) < (pyRound (q * 100) : ℚ) := by exact_mod_cast h
        have hp49 : ((pyRound (q * 100) : ℤ) : ℚ) ≤ 49 := by
          exact_mod_cast (by omega : pyRound (q * 100) ≤ 49)
        have key : (200 : ℚ) ≤ 100 / ((pyRound (q * 100) : ℚ) / 100) := by
          rw [div_div_eq_mul_div, le_div_iff hp1]
          linarith
        refine ⟨Or.inl ⟨?_, rfl⟩, ?_⟩
        · show (0 : ℚ) < 100 / ((pyRound (q * 100) : ℚ) / 100) - 100
          linarith
        · show (100 : ℚ) ≤ |100 / ((pyRound (q * 100) : ℚ) / 100) - 100|
          rw [abs_of_pos (by linarith)]
          linarith
      · rw [odds_branch_high q h3 h2]
        have hd : (0 : ℚ) < 1 - (pyRound (q * 100) : ℚ) / 100 := by
          rw [sub_pos, div_lt_one (by norm_num : (0:ℚ) < 100)]
          exact_mod_cast h2
        have hp50 : (50 : ℚ) ≤ (pyRound (q * 100) : ℚ) := by exact_mod_cast h3
        have hm : (100 : ℚ) ≤ (pyRound (q * 100) : ℚ) / (1 - (pyRound (q * 100) : ℚ) / 100) := by
          rw [le_div_iff hd]
          have hr : (100 : ℚ) * (1 - (pyRound (q * 100) : ℚ) / 100) =
              100 - (pyRound (q * 100) : ℚ) := by ring
          rw [hr]
          linarith
        refine ⟨Or.inr ⟨?_, rfl⟩, ?_⟩
        · show ((pyRound (q * 100) : ℚ) / (1 - (pyRound (q * 100) : ℚ) / 100)) * (-1) < 0
          linarith
        · show (100 : ℚ) ≤
            |((pyRound (q * 100) : ℚ) / (1 - (pyRound (q * 100) : ℚ) / 100)) * (-1)|
          rw [abs_of_neg (by linarith)]
          linarith

/-! ## C7 -/

/-- C7, counterexample.  Schedule = two regular-season 2025 games: week 5 on
`20250101` (past) and week 7 on `20250120` (future but beyond the 4-day
horizon); today is Wednesday `20250105`, horizon `20250109`.  No game lies
in the horizon and the most recent *past* game is the week-5 game, so the
claim demands `(2025, 6, 'reg')`; but the resolver's last-game query does
not filter to the past — it picks the week-7 future game and returns
`(2025, 8, 'reg')`. -/
theorem week_resolver_future_game_beyond_horizon :
    get_current_nfl_week_from_schedule 20250105 20250109 2 2025
      [⟨"g1", 2025, 5, "reg", 20250101⟩, ⟨"g2", 2025, 7, "reg", 20250120⟩] =
      (2025, 8, "reg") ∧
    mostRecentPastGame
      [⟨"g1", 2025, 5, "reg", 20250101⟩, ⟨"g2", 2025, 7, "reg", 20250120⟩]
      20250105 = some ⟨"g1", 2025, 5, "reg", 20250101⟩ ∧
    get_current_nfl_week_from_schedule 20250105 20250109 2 2025
      [⟨"g1", 2025, 5, "reg", 20250101⟩, ⟨"g2", 2025, 7, "reg", 20250120⟩] ≠
      (2025, 6, "reg") := by
  refine ⟨by decide, by decide, by decide⟩

/-- C7, amended.  On a non-Monday day, when no game lies in the 4-day
forward horizon, the resolver transitions from the schedule row that is
maximal by `(game_date, week)` — which may be a future game beyond the
horizon, not necessarily the most recent past game: from regular-season
week 18 it goes to the season's first scheduled playoff week (`'post'`) if
one exists, else `(year+1, 1, 'reg')`; from a playoff game to the next
scheduled playoff week if one exists, else `(year+1, 1, 'reg')`; from any
other regular-season week to `(year, week+1, 'reg')`; and with an empty
schedule it returns `(current calendar year, 1, 'reg')`. -/
theorem week_resolver_no_upcoming_transitions (today four_days_from_now day_of_week : ℕ)
    (current_year : ℤ) (sched : List ScheduleRow)
    (hdow : day_of_week ≠ 0)
    (hup : upcomingGame sched today four_days_from_now = none) :
    (sched = [] →
      get_current_nfl_week_from_schedule today four_days_from_now day_of_week
        current_year sched = (current_year, 1, "reg")) ∧
    (∀ last, lastGame sched = some last →
      (last.season_type = "reg" ∧ last.week = 18 →
        (∀ fp, firstPlayoffGame sched last.season_year = some fp →
          get_current_nfl_week_from_schedule today four_days_from_now day_of_week
            current_year sched = (last.season_year, fp.week, "post")) ∧
        (firstPlayoffGame sched last.season_year = none →
          get_current_nfl_week_from_schedule today four_days_from_now day_of_week
            current_year sched = (last.season_year + 1, 1, "reg"))) ∧
      (last.season_type = "post" →
        (∀ np, nextPlayoffGame sched last.season_year last.week = some np →
          get_current_nfl_week_from_schedule today four_days_from_now day_of_week
            current_year sched = (last.season_year, np.week, "post")) ∧
        (nextPlayoffGame sched last.season_year last.week = none →
          get_current_nfl_week_from_schedule today four_days_from_now day_of_week
            current_year sched = (last.season_year + 1, 1, "reg"))) ∧
      (last.season_type = "reg" → last.week ≠ 18 →
        get_current_nfl_week_from_schedule today four_days_from_now day_of_week
          current_year sched = (last.season_year, last.week + 1, "reg"))) := by
  unfold get_current_nfl_week_from_schedule
  rw [if_neg hdow]
  unfold nflWeekForward
  rw [hup]
  constructor
  · intro hnil
    subst hnil
    rfl
  · intro last hlast
    simp only [hlast]
    refine ⟨?_, ?_, ?_⟩
    · intro h18
      rw [if_pos h18]
      constructor
      · intro fp hfp
        simp only [hfp]
      · intro hfp
        simp only [hfp]
    · intro hpost
      have h18 : ¬ (last.season_type = "reg" ∧ last.week = 18) := by
        rintro ⟨hr, -⟩
        rw [hpost] at hr
        exact absurd hr (by decide)
      rw [if_neg h18, if_pos hpost]
      constructor
      · intro np hnp
        simp only [hnp]
      · intro hnp
        simp only [hnp]
    · intro hreg h18w
      have h18 : ¬ (last.season_type = "reg" ∧ last.week = 18) := by
        rintro ⟨-, hw⟩
        exact h18w hw
      have hpost : ¬ last.season_type = "post" := by
        rw [hreg]
        decide
      rw [if_neg h18, if_neg hpost]

/-- C7, witness: concrete schedule whose last game is playoff week 1 of
2025 with no later playoff round scheduled and nothing in the horizon; the
resolver rolls over to `(2026, 1, 'reg')`. -/
theorem week_resolver_no_upcoming_transitions_witness :
    upcomingGame
      [⟨"g3", 2025, 18, "reg", 20250105⟩, ⟨"g4", 2025, 1, "post", 20250111⟩]
      20250201 20250205 = none ∧
    get_current_nfl_week_from_schedule 20250201 20250205 2 2025
      [⟨"g3", 2025, 18, "reg", 20250105⟩, ⟨"g4", 2025, 1, "post", 20250111⟩] =
      (2026, 1, "reg") := by
  refine ⟨by decide, ?_⟩
  have h := week_resolver_no_upcoming_transitions 20250201 20250205 2 2025
    [⟨"g3", 2025, 18, "reg", 20250105⟩, ⟨"g4", 2025, 1, "post", 20250111⟩]
    (by decide) (by decide)
  have h2 := (h.2 ⟨"g4", 2025, 1, "post", 20250111⟩ (by decide)).2.1 (by decide)
  exact h2.2 (by decide)

/-! ## C8 -/

/-- C8.  For every `(season_year, week)` with `week ≥ 2`, the recomputed
readiness row derives its game-log count and availability flag from the
`GameLog` rows of `week - 1`, while its schedule, prediction and sportsbook
odds counts are derived from `week` itself. -/
theorem update_data_readiness_prior_week_logs (schedule : List ScheduleRow)
    (game_logs : List GameLogRow) (predictions : List PredictionRow)
    (odds : List SportsbookOddsRow) (season_year week : ℤ) (season_type : String)
    (h : 2 ≤ week) :
    (update_data_readiness schedule game_logs predictions odds season_year week
        season_type).game_logs_count =
      (game_logs.filter (fun r =>
        r.season_year = season_year ∧ r.week = week - 1)).length ∧
    (update_data_readiness schedule game_logs predictions odds season_year week
        season_type).game_logs_available =
      decide (0 < (game_logs.filter (fun r =>
        r.season_year = season_year ∧ r.week = week - 1)).length) ∧
    (update_data_readiness schedule game_logs predictions odds season_year week
        season_type).games_count =
      (schedule.filter (fun r =>
        r.season_year = season_year ∧ r.week = week ∧
          r.season_type = season_type_map season_type)).length ∧
    (update_data_readiness schedule game_logs predictions odds season_year week
        season_type).predictions_count =
      (predictions.filter (fun r =>
        r.season_year = season_year ∧ r.week = week)).length ∧
    (update_data_readiness schedule game_logs predictions odds season_year week
        season_type).draftkings_odds_count =
      (odds.filter (fun r =>
        r.season_year = season_year ∧ r.week = week ∧
          r.sportsbook = "draftkings")).length ∧
    (update_data_readiness schedule game_logs predictions odds season_year week
        season_type).fanduel_odds_count =
      (odds.filter (fun r =>
        r.season_year = season_year ∧ r.week = week ∧
          r.sportsbook = "fanduel")).length := by
  have hw : (1 : ℤ) < week := by omega
  unfold update_data_readiness
  rw [if_pos hw]
  exact ⟨rfl, rfl, rfl, rfl, rfl, rfl⟩

/-- C8, witness: one game-log row of week 1 feeds the readiness row for
week 2, whose other counts are taken at week 2. -/
theorem update_data_readiness_prior_week_logs_witness :
    (2 : ℤ) ≤ 2 ∧
    ((update_data_readiness [] [⟨"p1", "g1", 2025, 1, 1, 10, 0, 2⟩] [] [] 2025 2
        "reg").game_logs_count =
      (([⟨"p1", "g1", 2025, 1, 1, 10, 0, 2⟩] : List GameLogRow).filter (fun r =>
        r.season_year = 2025 ∧ r.week = 2 - 1)).length ∧
    (update_data_readiness [] [⟨"p1", "g1", 2025, 1, 1, 10, 0, 2⟩] [] [] 2025 2
        "reg").game_logs_available =
      decide (0 < (([⟨"p1", "g1", 2025, 1, 1, 10, 0, 2⟩] : List GameLogRow).filter
        (fun r => r.season_year = 2025 ∧ r.week = 2 - 1)).length) ∧
    (update_data_readiness [] [⟨"p1", "g1", 2025, 1, 1, 10, 0, 2⟩] [] [] 2025 2
        "reg").games_count =
      (([] : List ScheduleRow).filter (fun r =>
        r.season_year = 2025 ∧ r.week = 2 ∧
          r.season_type = season_type_map "reg")).length ∧
    (update_data_readiness [] [⟨"p1", "g1", 2025, 1, 1, 10, 0, 2⟩] [] [] 2025 2
        "reg").predictions_count =
      (([] : List PredictionRow).filter (fun r =>
        r.season_year = 2025 ∧ r.week = 2)).length ∧
    (update_data_readiness [] [⟨"p1", "g1", 2025, 1, 1, 10, 0, 2⟩] [] [] 2025 2
        "reg").draftkings_odds_count =
      (([] : List SportsbookOddsRow).filter (fun r =>
        r.season_year = 2025 ∧ r.week = 2 ∧
          r.sportsbook = "draftkings")).length ∧
    (update_data_readiness [] [⟨"p1", "g1", 2025, 1, 1, 10, 0, 2⟩] [] [] 2025 2
        "reg").fanduel_odds_count =
      (([] : List SportsbookOddsRow).filter (fun r =>
        r.season_year = 2025 ∧ r.week = 2 ∧
          r.sportsbook = "fanduel")).length) :=
  ⟨by norm_num,
   update_data_readiness_prior_week_logs [] [⟨"p1", "g1", 2025, 1, 1, 10, 0, 2⟩]
     [] [] 2025 2 "reg" (by norm_num)⟩

/-! ## C10 -/

/-- C10.  Whatever triple `get_current_nfl_week()` resolves to,
`get_previous_nfl_week` raises `ValueError` ("too many values to unpack"):
it binds the 3-tuple to only two names, so the helper never returns a
result on any input. -/
theorem get_previous_nfl_week_always_raises (current : ℤ × ℤ × String) :
    get_previous_nfl_week current =
      Except.error "ValueError: too many values to unpack (expected 2)" := by
  rfl

/-! ## C5 -/

/-- Folding a step function over a list equals folding over its filtered
sublist when every dropped element acts as the identity on the state. -/
theorem foldl_eq_foldl_filter {α β : Type} (f : β → α → β) (p : α → Bool) :
    ∀ (l : List α), (∀ a ∈ l, p a = false → ∀ st, f st a = st) →
      ∀ b, l.foldl f b = (l.filter p).foldl f b := by
  intro l
  induction l with
  | nil =>
    intro _ b
    rfl
  | cons x xs ih =>
    intro h b
    by_cases hx : p x = true
    · rw [List.filter_cons_of_pos hx]
      simp only [List.foldl_cons]
      exact ih (fun a ha hpa st => h a (List.mem_cons_of_mem _ ha) hpa st) (f b x)
    · have hx' : p x = false := by
        revert hx
        cases p x <;> simp
      rw [List.filter_cons_of_neg (by simp [hx'])]
      simp only [List.foldl_cons]
      rw [h x (List.mem_cons_self _ _) hx' b]
      exact ih (fun a ha hpa st => h a (List.mem_cons_of_mem _ ha) hpa st) b

/-- C5.  If the box-score fetch fails for exactly one `game_id` (`g0`) among
the completed week's games and succeeds for the others, the game-logs step
still completes with status `success` (hence `success` or `partial`, never
`failed`), and its `records_processed` equals the number of game logs the
same sync adds when run on the schedule without `g0` — the total from the
other `N - 1` games. -/
theorem game_logs_step_isolates_single_fetch_failure
    (db_game_logs : List GameLogRow) (valid_player_ids : List String)
    (fetch : String → Except String (List GameLogRow))
    (schedule : List ScheduleRow) (current_season current_week : ℤ)
    (g0 msg : String)
    (hfail : fetch g0 = Except.error msg)
    (hone : ((schedule.filter (fun r =>
        r.season_year = current_season ∧ r.week = current_week - 1)).countP
        (fun r => r.game_id = g0)) = 1)
    (hok : ∀ r ∈ schedule.filter (fun r =>
        r.season_year = current_season ∧ r.week = current_week - 1),
      r.game_id ≠ g0 → (fetch r.game_id).isOk = true) :
    (run_game_logs_step db_game_logs valid_player_ids fetch schedule
        current_season current_week).status = "success" ∧
    ((run_game_logs_step db_game_logs valid_player_ids fetch schedule
        current_season current_week).status = "success" ∨
     (run_game_logs_step db_game_logs valid_player_ids fetch schedule
        current_season current_week).status = "partial") ∧
    (run_game_logs_step db_game_logs valid_player_ids fetch schedule
        current_season current_week).records_processed =
      (update_game_logs_from_box_scores db_game_logs valid_player_ids fetch
        (schedule.filter (fun r => r.game_id ≠ g0)) current_season
        current_week).new_logs := by
  refine ⟨rfl, Or.inl rfl, ?_⟩
  unfold run_game_logs_step update_game_logs_from_box_scores
  dsimp only
  have hcomm :
      (schedule.filter (fun r => r.game_id ≠ g0)).filter (fun r =>
        r.season_year = current_season ∧ r.week = current_week - 1) =
      (schedule.filter (fun r =>
        r.season_year = current_season ∧ r.week = current_week - 1)).filter
        (fun r => r.game_id ≠ g0) := by
    rw [List.filter_filter, List.filter_filter]
    exact List.filter_congr (fun a _ => by rw [Bool.and_comm])
  rw [hcomm]
  have hid : ∀ a ∈ schedule.filter (fun r =>
        r.season_year = current_season ∧ r.week = current_week - 1),
      (fun r => decide (r.game_id ≠ g0)) a = false →
      ∀ st, processBoxScoreGame valid_player_ids fetch st a = st := by
    intro a _ hpa st
    have hga : a.game_id = g0 := by
      by_contra hne
      simp [hne] at hpa
    unfold processBoxScoreGame
    rw [hga, hfail]
  have hfold := foldl_eq_foldl_filter (processBoxScoreGame valid_player_ids fetch)
    (fun r => decide (r.game_id ≠ g0))
    (schedule.filter (fun r =>
      r.season_year = current_season ∧ r.week = current_week - 1))
    hid ⟨db_game_logs, 0, [], 0⟩
  have hne : (schedule.filter (fun r =>
      r.season_year = current_season ∧ r.week = current_week - 1)).isEmpty = false := by
    by_contra habs
    have : (schedule.filter (fun r =>
        r.season_year = current_season ∧ r.week = current_week - 1)) = [] := by
      rw [← List.isEmpty_iff]
      revert habs
      cases (schedule.filter (fun r =>
        r.season_year = current_season ∧ r.week = current_week - 1)).isEmpty <;> simp
    rw [this] at hone
    simp at hone
  rw [hne]
  simp only [Bool.false_eq_true, if_false]
  rw [hfold]
  by_cases hE : ((schedule.filter (fun r =>
      r.season_year = current_season ∧ r.week = current_week - 1)).filter
      (fun r => r.game_id ≠ g0)).isEmpty
  · have hnil : ((schedule.filter (fun r =>
        r.season_year = current_season ∧ r.week = current_week - 1)).filter
        (fun r => r.game_id ≠ g0)) = [] := List.isEmpty_iff.mp hE
    rw [hnil]
    rfl
  · have hE' : ((schedule.filter (fun r =>
        r.season_year = current_season ∧ r.week = current_week - 1)).filter
        (fun r => r.game_id ≠ g0)).isEmpty = false := by
      revert hE
      cases ((schedule.filter (fun r =>
        r.season_year = current_season ∧ r.week = current_week - 1)).filter
        (fun r => r.game_id ≠ g0)).isEmpty <;> simp
    rw [hE']
    simp only [Bool.false_eq_true, if_false]

/-- C5, witness: two scheduled games for the completed week; the fetch
fails for `g0` and succeeds for `gA` (one valid player log).  The step
completes with status `success` and `records_processed = 1` — the log count
from the surviving game alone. -/
theorem game_logs_step_isolates_single_fetch_failure_witness :
    witnessFetch "g0" = Except.error "API error" ∧
    (run_game_logs_step [] ["p1"] witnessFetch
      [⟨"g0", 2025, 4, "reg", 20251001⟩, ⟨"gA", 2025, 4, "reg", 20251002⟩]
      2025 5).status = "success" ∧
    (run_game_logs_step [] ["p1"] witnessFetch
      [⟨"g0", 2025, 4, "reg", 20251001⟩, ⟨"gA", 2025, 4, "reg", 20251002⟩]
      2025 5).records_processed =
      (update_game_logs_from_box_scores [] ["p1"] witnessFetch
        (([⟨"g0", 2025, 4, "reg", 20251001⟩, ⟨"gA", 2025, 4, "reg", 20251002⟩] :
          List ScheduleRow).filter (fun r => r.game_id ≠ "g0")) 2025 5).new_logs ∧
    (run_game_logs_step [] ["p1"] witnessFetch
      [⟨"g0", 2025, 4, "reg", 20251001⟩, ⟨"gA", 2025, 4, "reg", 20251002⟩]
      2025 5).records_processed = 1 := by
  have h := game_logs_step_isolates_single_fetch_failure [] ["p1"] witnessFetch
    [⟨"g0", 2025, 4, "reg", 20251001⟩, ⟨"gA", 2025, 4, "reg", 20251002⟩] 2025 5
    "g0" "API error" (by rfl) (by decide) (by decide)
  exact ⟨by rfl, h.1, h.2.2, by decide⟩

/-- C6, witness: the underdog branch instantiated at probability `1/4`
(`p = 25`, so `0 < p < 50` holds) reports favor `+1`. -/
theorem decimal_to_american_odds_branch_formulas_witness :
    (0 : ℤ) < 25 ∧ (25 : ℤ) < 50 ∧ (decimal_to_american_odds (1/4)).2.2 = 1 := by
  have h25 : pyRound ((1/4 : ℚ) * 100) = 25 := by
    rw [show ((1/4 : ℚ) * 100) = ((25 : ℤ) : ℚ) by norm_num, pyRound_intCast]
  refine ⟨by norm_num, by norm_num, ?_⟩
  exact (decimal_to_american_odds_branch_formulas.2.2.1 (1/4)
    (by rw [h25]; norm_num) (by rw [h25]; norm_num)).2.1
